import Mathlib

/-!
Shallow embedding of the `http_serv` repository (Rust) in Lean 4.

The embedding covers:
* `src/http/http_structs.rs`: `HttpHeaders::from_line`, `HttpRequest::from_stream`
  (header-pair collection and Content-Length body reads, modelled over the list of
  already-read header lines plus the remaining byte stream),
  `HttpRequest::query_params_from_string`, `HttpResponse::to_headers`,
  `HttpResponse::status_to_header`, `HttpData::to_header`;
* `src/http/server.rs` `handle_connection`: the per-entry match/invoke condition;
* `src/http_server/server.rs` `handle_connection`: the per-entry route-parameter
  scan (with catch-all segments), the invoke condition, the `found_handler` flag
  and the default-handler fall-through, plus the default handler installed by
  `HttpServer::new` when none is configured.

Rust's single-character string operations (`split`, `split_once`, `trim`,
`starts_with`, `ends_with`, `join`) are modelled by structurally recursive
functions over `String.data` so that every definition evaluates in the kernel.
-/

namespace HttpServ

/-- Rust `str::split(c)`: maximal split at every occurrence of `c`,
keeping empty pieces; the split of `""` is `[""]`. -/
def splitChar (c : Char) : List Char → List (List Char)
  | [] => [[]]
  | x :: xs =>
    let r := splitChar c xs
    if x = c then [] :: r
    else
      match r with
      | h :: t => (x :: h) :: t
      | [] => [[x]]

/-- `splitChar` lifted to `String`. -/
def splitStr (c : Char) (s : String) : List String :=
  (splitChar c s.data).map String.mk

/-- Rust `str::split_once(c)`: break at the first occurrence of `c`. -/
def breakAtChar (c : Char) : List Char → Option (List Char × List Char)
  | [] => none
  | x :: xs =>
    if x = c then some ([], xs)
    else
      match breakAtChar c xs with
      | some (as, bs) => some (x :: as, bs)
      | none => none

/-- `breakAtChar` lifted to `String`, mirroring Rust `split_once`. -/
def splitOnceChar (c : Char) (s : String) : Option (String × String) :=
  match breakAtChar c s.data with
  | some (as, bs) => some (⟨as⟩, ⟨bs⟩)
  | none => none

/-- Rust `str::trim`: drop whitespace from both ends. -/
def trimStr (s : String) : String :=
  ⟨((s.data.dropWhile Char.isWhitespace).reverse.dropWhile Char.isWhitespace).reverse⟩

/-- Rust `str::starts_with(c)` for a single character. -/
def startsWithChar (c : Char) (s : String) : Bool :=
  match s.data with
  | [] => false
  | x :: _ => x = c

/-- Rust `str::ends_with(c)` for a single character. -/
def endsWithChar (c : Char) (s : String) : Bool :=
  match s.data.getLast? with
  | some x => x = c
  | none => false

/-- Rust `[&str]::join(sep)`. -/
def joinStr (sep : String) : List String → String
  | [] => ""
  | [s] => s
  | s :: rest => s ++ sep ++ joinStr sep rest

/-- Rust `usize::from_str` (value of `"Content-Length"`): an optional leading
`'+'`, then one or more decimal digits; overflow past `2^64` is an error.
Since the accumulated value only grows, intermediate overflow is equivalent to
the final value reaching `2^64`. -/
def parseUsize (s : String) : Option Nat :=
  let digits :=
    match s.data with
    | '+' :: rest => rest
    | chars => chars
  if digits.isEmpty then none
  else if digits.all Char.isDigit then
    let n := digits.foldl (fun acc c => acc * 10 + (c.toNat - 48)) 0
    if n < 2 ^ 64 then some n else none
  else none

/-- `HttpMethod` from `src/http/http_structs.rs`. -/
inductive HttpMethod where
  | POST
  | PUT
  | GET
  | DELETE
deriving DecidableEq

/-- `HttpStatus` from `src/http/http_structs.rs` (closed enumeration). -/
inductive HttpStatus where
  | Continue
  | SwitchingProtocols
  | Processing
  | EarlyHints
  | Ok
  | Created
  | Accepted
  | NonAuthorativeInformation
  | NoContent
  | ResetContent
  | PartialContent
  | MultiStatus
  | AlreadyReported
  | IMUsed
  | MultipleChoices
  | MovedPermanently
  | Found
  | SeeOther
  | NotModified
  | UseProxy
  | Unused
  | TemporaryRedirect
  | PermanentRedirect
  | BadRequest
  | Unauthorized
  | PaymentRequired
  | Forbidden
  | NotFound
  | MethodNotAllowed
  | NotAcceptable
  | ProxyAuthenticationRequired
  | RequestTimeout
  | Conflict
  | Gone
  | LengthRequired
  | PreconditionFailed
  | PayloadTooLarge
  | URITooLong
  | UnsupportedMediaType
  | RangeNotSatisfiable
  | ExpectationFailed
  | IMATeapot
  | MisdirectedRequest
  | UnprocessableContent
  | Locked
  | FailedDependency
  | TooEarly
  | UpgradeRequired
  | PreconditionRequired
  | TooManyRequests
  | RequestsHeaderFieldsTooLarge
  | UnavailableForLegalReasons
  | InternalServerError
  | NotImplemented
  | BadGateway
  | ServiceUnavailable
  | GatewayTimeout
  | HTTPVersionNotSupported
  | VariantAlsoNegotiates
  | InsufficientStorage
  | LoopDetected
  | NotExtended
  | NetworkAuthenticationRequired
deriving DecidableEq, Fintype

/-- `HttpResponse::status_to_header` from `src/http/http_structs.rs`. -/
def statusToHeader (status : HttpStatus) : String :=
  match status with
  | .Continue => "100 Continue"
  | .SwitchingProtocols => "101 Switching Protocols"
  | .Processing => "102 Processing"
  | .EarlyHints => "103 Early Hints"
  | .Ok => "200 OK"
  | .Created => "201 Created"
  | .Accepted => "202 Accepted"
  | .NonAuthorativeInformation => "203 Non-Authoritative Information"
  | .NoContent => "204 No Content"
  | .ResetContent => "205 Reset Content"
  | .PartialContent => "206 Partial Content"
  | .MultiStatus => "207 Multi-Status"
  | .AlreadyReported => "208 Already Reported"
  | .IMUsed => "226 IM Used"
  | .MultipleChoices => "300 Multiple Choices"
  | .MovedPermanently => "301 Moved Permanently"
  | .Found => "302 Found"
  | .SeeOther => "303 See Other"
  | .NotModified => "304 Not Modified"
  | .UseProxy => "305 Use Proxy"
  | .Unused => "306 Unused"
  | .TemporaryRedirect => "307 Temporary Redirect"
  | .PermanentRedirect => "308 Permanent Redirect"
  | .BadRequest => "400 Bad Request"
  | .Unauthorized => "401 Unauthorized"
  | .PaymentRequired => "402 Payment Required"
  | .Forbidden => "403 Forbidden"
  | .NotFound => "404 Not Found"
  | .MethodNotAllowed => "405 Method Not Allowed"
  | .NotAcceptable => "406 Not Acceptable"
  | .ProxyAuthenticationRequired => "407 Proxy Authentication Required"
  | .RequestTimeout => "408 Request Timeout"
  | .Conflict => "409 Conflict"
  | .Gone => "410 Gone"
  | .LengthRequired => "411 Length Required"
  | .PreconditionFailed => "412 Precondition Failed"
  | .PayloadTooLarge => "413 Payload Too Large"
  | .URITooLong => "414 URI Too Long"
  | .UnsupportedMediaType => "415 Unsupported Media Type"
  | .RangeNotSatisfiable => "416 Range Not Satisfiable"
  | .ExpectationFailed => "417 Expectation Failed"
  | .IMATeapot => "418 I'm a teapot"
  | .MisdirectedRequest => "421 Misdirected Request"
  | .UnprocessableContent => "422 Unprocessable Entity"
  | .Locked => "423 Locked"
  | .FailedDependency => "424 Failed Dependency"
  | .TooEarly => "425 Too Early"
  | .UpgradeRequired => "426 Upgrade Required"
  | .PreconditionRequired => "428 Precondition Required"
  | .TooManyRequests => "429 Too Many Requests"
  | .RequestsHeaderFieldsTooLarge => "431 Request Header Fields Too Large"
  | .UnavailableForLegalReasons => "451 Unavailable For Legal Reasons"
  | .InternalServerError => "500 Internal Server Error"
  | .NotImplemented => "501 Not Implemented"
  | .BadGateway => "502 Bad Gateway"
  | .ServiceUnavailable => "503 Service Unavailable"
  | .GatewayTimeout => "504 Gateway Timeout"
  | .HTTPVersionNotSupported => "505 HTTP Version Not Supported"
  | .VariantAlsoNegotiates => "506 Variant Also Negotiates"
  | .InsufficientStorage => "507 Insufficient Storage"
  | .LoopDetected => "508 Loop Detected"
  | .NotExtended => "510 Not Extended"
  | .NetworkAuthenticationRequired => "511 Network Authentication Required"

/-- `HttpData::to_header` from `src/http/http_structs.rs`; the body is its byte list. -/
def dataToHeader (data : List (Fin 256)) : String :=
  "Content-Length: " ++ toString data.length

/-- `HttpResponse` from `src/http/http_structs.rs`
(the body `HttpData` is its byte list). -/
structure HttpResponse where
  http_ver : String
  status : HttpStatus
  extra_headers : Option (List (String × String))
  data : Option (List (Fin 256))

/-- `HttpResponse::to_headers` from `src/http/http_structs.rs`. -/
def toHeaders (r : HttpResponse) : List String :=
  let headers := ["HTTP/" ++ r.http_ver ++ " " ++ statusToHeader r.status]
  let headers :=
    match r.data with
    | some data => headers ++ [dataToHeader data]
    | none => headers
  let headers :=
    match r.extra_headers with
    | some eh => headers ++ eh.map (fun p => p.1 ++ ": " ++ p.2)
    | none => headers
  headers ++ ["\r\n"]

/-- `handle_closure` writes `response.to_headers().join("\r\n")`
(`src/http/server.rs`, `src/http_server/server.rs`). -/
def serializeHeaders (r : HttpResponse) : String :=
  joinStr "\r\n" (toHeaders r)

/-- `HttpHeaders` from `src/http/http_structs.rs` (method, path, protocol). -/
structure HttpHeaders where
  method : HttpMethod
  path : String
  protocol : String
deriving DecidableEq

/-- Spec-side helper: the closed method set {GET, PUT, POST, DELETE}. -/
def methodOfToken : String → Option HttpMethod
  | "GET" => some .GET
  | "PUT" => some .PUT
  | "POST" => some .POST
  | "DELETE" => some .DELETE
  | _ => none

/-- Core of `HttpHeaders::from_line`: three `Vec::pop` calls on the token list
(protocol, then path, then the method token), exactly as in the source. -/
def fromLineToks (methodline : List String) : Except String HttpHeaders :=
  match methodline.getLast? with
  | none => .error "Could not fetch protocol from headers"
  | some protocol =>
    let m1 := methodline.dropLast
    match m1.getLast? with
    | none => .error "Could not fetch path from headers"
    | some path =>
      match m1.dropLast.getLast? with
      | some tok =>
        match methodOfToken tok with
        | some m => .ok ⟨m, path, protocol⟩
        | none => .error ("Failed to fetch method, got: " ++ tok)
      | none => .error "Failed to fetch method, got no method"

/-- `HttpHeaders::from_line` from `src/http/http_structs.rs`:
split the header line on `' '` and pop tokens from the right. -/
def fromLine (headerline : String) : Except String HttpHeaders :=
  fromLineToks (splitStr ' ' headerline)

/-- `HttpRequest` from `src/http/http_structs.rs`
(`client_ip` is connection metadata and is not modelled). -/
structure HttpRequest where
  http_headers : HttpHeaders
  extra_headers : List (String × String)
  data : Option (List (Fin 256))
  route_params : Option (List (String × String))
  query_params : Option (List (String × String))
deriving DecidableEq

/-- The header-pair loop of `HttpRequest::from_stream`: each remaining line is
split once at the first `':'` (key and value trimmed); a line with no `':'` is
skipped; an empty line stops the loop. -/
def parseExtraHeaders : List String → List (String × String)
  | [] => []
  | line :: rest =>
    if line.data.isEmpty then []
    else
      match splitOnceChar ':' line with
      | some (key, val) => (trimStr key, trimStr val) :: parseExtraHeaders rest
      | none => parseExtraHeaders rest

/-- The Content-Length loop of `HttpRequest::from_stream`: for every header
named exactly `"Content-Length"`, parse the value (`continue` on failure) and
`read_exact` that many bytes from the remaining stream, overwriting `_data`;
a short read is a fatal error. -/
def readBodies : List (String × String) → Option (List (Fin 256)) → List (Fin 256) →
    Except String (Option (List (Fin 256)) × List (Fin 256))
  | [], d, rest => .ok (d, rest)
  | (key, val) :: hs, d, rest =>
    if key = "Content-Length" then
      match parseUsize val with
      | none => readBodies hs d rest
      | some n =>
        if rest.length < n then .error "Error reading request body"
        else readBodies hs (some (rest.take n)) (rest.drop n)
    else readBodies hs d rest

/-- `HttpRequest::from_stream` from `src/http/http_structs.rs`, modelled from
the point where the header section has been read: `lines` are the trimmed
header-section lines (first one the header line) and `rest` the bytes that
follow the blank line.  Returns the request and the unread remainder. -/
def fromStream (lines : List String) (rest : List (Fin 256)) :
    Except String (HttpRequest × List (Fin 256)) :=
  match fromLine (lines.head?.getD "") with
  | .error err => .error err
  | .ok http_headers =>
    let extra := parseExtraHeaders lines.tail
    match readBodies extra none rest with
    | .error err => .error err
    | .ok (d, rest') => .ok (⟨http_headers, extra, d, none, none⟩, rest')

/-- The push loop of `HttpRequest::query_params_from_string`. -/
def queryGo : List String → List (String × String)
  | [] => []
  | e :: es =>
    match splitOnceChar '=' e with
    | some (k, v) => (k, v) :: queryGo es
    | none => queryGo es

/-- `HttpRequest::query_params_from_string` from `src/http/http_structs.rs`:
split on `'&'`, then each piece once on the first `'='`;
pieces without `'='` are dropped. -/
def queryParamsFromString (params : String) : List (String × String) :=
  queryGo (splitStr '&' params)

/-- Segment-pair check of `handle_connection` in `src/http/server.rs`:
a pattern segment starting with `':'` binds, otherwise the segments must be
equal; runs over the zip of the two (equal-length) segment lists. -/
def segsMatchV1 : List String → List String → Bool
  | d :: ds, r :: rs =>
    if startsWithChar ':' d then segsMatchV1 ds rs
    else if d = r then segsMatchV1 ds rs
    else false
  | _, _ => true

/-- Path-match condition of `handle_connection` in `src/http/server.rs`:
both sides are split on `'/'` with empty segments removed; differing segment
counts disqualify the entry, otherwise the pairwise check runs. -/
def v1EntryMatches (pat : String) (routePath : String) : Bool :=
  let handler_path := (splitStr '/' pat).filter (fun x => !x.data.isEmpty)
  let request_path := (splitStr '/' routePath).filter (fun x => !x.data.isEmpty)
  if handler_path.length ≠ request_path.length then false
  else segsMatchV1 handler_path request_path

/-- Invocation condition of `handle_connection` in `src/http/server.rs`:
`handler.0 == method && path_matches`. -/
def v1Invoked (entry : HttpMethod × String) (m : HttpMethod) (routePath : String) : Bool :=
  decide (entry.1 = m) && v1EntryMatches entry.2 routePath

/-- Segment loop of `handle_connection` in `src/http_server/server.rs`, over
the zip of received (path) and defined (pattern) segments: a `':'` segment
binds (a trailing-`'*'` catch-all binds the joined remainder, sets
`found_handler` and breaks); a literal mismatch breaks.  Returns the collected
route parameters and whether the catch-all branch set `found_handler`. -/
def scanV2 : List String → List String → List (String × String) × Bool
  | r :: rs, d :: ds =>
    if startsWithChar ':' d then
      if endsWithChar '*' d then
        ([(d, joinStr "/" (r :: rs))], true)
      else
        let res := scanV2 rs ds
        ((d, r) :: res.1, res.2)
    else if r = d then scanV2 rs ds
    else ([], false)
  | _, _ => ([], false)

/-- Route parameters collected for one entry by `handle_connection` in
`src/http_server/server.rs` (request path split on `'/'`, pattern split on `'/'`,
no empty-segment filtering in this implementation). -/
def v2RouteParams (pat : String) (routePath : String) : List (String × String) :=
  (scanV2 (splitStr '/' routePath) (splitStr '/' pat)).1

/-- Invocation condition of `handle_connection` in `src/http_server/server.rs`:
the handler runs iff `handler.0 == http_request.http_headers.method` —
the segment loop does not gate execution. -/
def v2EntryInvoked (entry : HttpMethod × String) (m : HttpMethod) : Bool :=
  decide (entry.1 = m)

/-- Contribution of one entry to `found_handler` in
`src/http_server/server.rs`: the catch-all branch or a method match sets it. -/
def v2FoundFlag (entry : HttpMethod × String) (m : HttpMethod) (routePath : String) : Bool :=
  (scanV2 (splitStr '/' routePath) (splitStr '/' entry.2)).2 || v2EntryInvoked entry m

/-- Whole-dispatch outcome of `handle_connection` in
`src/http_server/server.rs` for one request: which entries invoke their
handler (in order), and whether the default handler runs
(it runs iff no entry set `found_handler`). -/
def v2Dispatch (handlers : List (HttpMethod × String)) (m : HttpMethod)
    (routePath : String) : List Bool × Bool :=
  let invoked := handlers.map (fun h => v2EntryInvoked h m)
  let found := handlers.any (fun h => v2FoundFlag h m routePath)
  (invoked, !found)

/-- The default handler installed by `HttpServer::new` in
`src/http_server/server.rs` when none is configured:
`HttpResponse::new("1.1", NotImplemented, None, None)`. -/
def defaultHandlerResponse : HttpResponse :=
  ⟨"1.1", .NotImplemented, none, none⟩

/-- Splitting the request path from its query portion at the first `'?'`
(`handle_connection`, both servers). -/
def routeOfPath (path : String) : String :=
  match splitOnceChar '?' path with
  | some (r, _) => r
  | none => path

/-- `Result::is_err`. -/
def isError {ε α : Type} : Except ε α → Bool
  | .error _ => true
  | .ok _ => false

lemma getLast?_cons_of_isSome {α : Type} (a : α) {l : List α} {x : α}
    (h : l.getLast? = some x) : (a :: l).getLast? = some x := by
  cases l with
  | nil => simp at h
  | cons b t => rw [List.getLast?_cons_cons]; exact h

lemma queryGo_eq_foldr (es : List String) :
    queryGo es = es.foldr
      (fun e acc =>
        match splitOnceChar '=' e with
        | some kv => kv :: acc
        | none => acc) [] := by
  induction es with
  | nil => rfl
  | cons e es ih =>
    cases h : splitOnceChar '=' e with
    | none => simp [queryGo, h, ih]
    | some kv =>
      obtain ⟨k, v⟩ := kv
      simp [queryGo, h, ih]

/-- **C1**: the claim says a handler runs only when the method matches AND the
full path structure matches, in both dispatch implementations.  The
`src/http_server/server.rs` dispatcher violates this: for the registered entry
`(GET, "/foo")` and a `GET /bar` request, the segment loop finds a mismatch
(no route parameters, `v1EntryMatches` is false, and the strict
`src/http/server.rs` dispatcher would not invoke), yet `v2EntryInvoked` is true
and the whole dispatch invokes the handler — execution is gated on the method
alone. -/
theorem http_server_dispatch_method_alone :
    v2EntryInvoked (HttpMethod.GET, "/foo") HttpMethod.GET = true
    ∧ v2RouteParams "/foo" "/bar" = []
    ∧ v1EntryMatches "/foo" "/bar" = false
    ∧ v1Invoked (HttpMethod.GET, "/foo") HttpMethod.GET "/bar" = false
    ∧ v2Dispatch [(HttpMethod.GET, "/foo")] HttpMethod.GET "/bar" = ([true], false) := by
  decide

/-- **C2**: the claim says every request matching no entry (method plus full
path structure) reaches the default handler, and the unconfigured default
returns 501 with no body.  The 501/no-body part holds, but the fall-through is
broken in `src/http_server/server.rs`: with entry `(GET, "/a")` and request
`GET /b` nothing matches structurally, yet the entry's handler runs and the
default handler does not; with entry `(POST, "/files/:rest*")` and request
`GET /files/x` nothing matches, no handler runs, and the default handler still
does not run (the catch-all branch set `found_handler`). -/
theorem http_server_default_handler_skipped :
    defaultHandlerResponse.status = HttpStatus.NotImplemented
    ∧ defaultHandlerResponse.data = none
    ∧ v1EntryMatches "/a" "/b" = false
    ∧ v2Dispatch [(HttpMethod.GET, "/a")] HttpMethod.GET "/b" = ([true], false)
    ∧ v1Invoked (HttpMethod.POST, "/files/:rest*") HttpMethod.GET "/files/x" = false
    ∧ v2Dispatch [(HttpMethod.POST, "/files/:rest*")] HttpMethod.GET "/files/x"
        = ([false], false) := by
  decide

/-- **C3**: in `src/http_server/server.rs`, a route pattern ending in a
catch-all segment (starts with `':'`, ends with `'*'`), matched against a
request path with at least as many raw segments whose earlier segment pairs
each satisfy parameter binding or literal equality, binds the catch-all
parameter — stored under the literal pattern token — to the remaining path
segments joined with `'/'`, and the segment comparison stops there (the
catch-all branch breaks the loop and sets its flag).  In particular
`/files/:rest*` against `/files/a/b/c` binds `":rest*"` to `"a/b/c"`. -/
theorem catchall_binds_rest :
    (∀ (ds rsPre rsRest : List String) (cseg : String),
       startsWithChar ':' cseg = true → endsWithChar '*' cseg = true →
       rsPre.length = ds.length → rsRest ≠ [] →
       (∀ p ∈ ds.zip rsPre,
          (startsWithChar ':' p.1 = true ∧ endsWithChar '*' p.1 = false)
          ∨ (startsWithChar ':' p.1 = false ∧ p.2 = p.1)) →
       (scanV2 (rsPre ++ rsRest) (ds ++ [cseg])).1.getLast?
           = some (cseg, joinStr "/" rsRest)
       ∧ (scanV2 (rsPre ++ rsRest) (ds ++ [cseg])).2 = true)
    ∧ v2RouteParams "/files/:rest*" "/files/a/b/c" = [(":rest*", "a/b/c")] := by
  refine ⟨?_, rfl⟩
  intro ds
  induction ds with
  | nil =>
    intro rsPre rsRest cseg h1 h2 hlen hne hzip
    have hPre : rsPre = [] := List.length_eq_zero.mp (by simpa using hlen)
    subst hPre
    cases rsRest with
    | nil => exact absurd rfl hne
    | cons r rs => simp [scanV2, h1, h2]
  | cons d ds ih =>
    intro rsPre rsRest cseg h1 h2 hlen hne hzip
    cases rsPre with
    | nil => simp at hlen
    | cons r rs =>
      have hd := hzip (d, r) (by simp)
      have hrest : ∀ p ∈ ds.zip rs,
          (startsWithChar ':' p.1 = true ∧ endsWithChar '*' p.1 = false)
          ∨ (startsWithChar ':' p.1 = false ∧ p.2 = p.1) :=
        fun p hp => hzip p (by simp [hp])
      have hlen' : rs.length = ds.length := by simpa using hlen
      rcases hd with ⟨hds, hde⟩ | ⟨hds, hdr⟩
      · replace hds : startsWithChar ':' d = true := hds
        replace hde : endsWithChar '*' d = false := hde
        have ihr := ih rs rsRest cseg h1 h2 hlen' hne hrest
        have hcons : scanV2 ((r :: rs) ++ rsRest) ((d :: ds) ++ [cseg])
            = ((d, r) :: (scanV2 (rs ++ rsRest) (ds ++ [cseg])).1,
               (scanV2 (rs ++ rsRest) (ds ++ [cseg])).2) := by
          simp [scanV2, hds, hde]
        rw [hcons]
        exact ⟨getLast?_cons_of_isSome _ ihr.1, ihr.2⟩
      · replace hds : startsWithChar ':' d = false := hds
        replace hdr : r = d := hdr
        subst hdr
        have hcons : scanV2 ((r :: rs) ++ rsRest) ((r :: ds) ++ [cseg])
            = scanV2 (rs ++ rsRest) (ds ++ [cseg]) := by
          simp [scanV2, hds]
        rw [hcons]
        exact ih rs rsRest cseg h1 h2 hlen' hne hrest

/-- Witness for **C3**: the general catch-all theorem instantiated at pattern
segments `["", "files", ":rest*"]` and path segments
`["", "files", "a", "b", "c"]` (the splits of `/files/:rest*` and
`/files/a/b/c`), with every hypothesis discharged concretely. -/
theorem catchall_binds_rest_witness :
    startsWithChar ':' ":rest*" = true
    ∧ endsWithChar '*' ":rest*" = true
    ∧ (["", "files"] : List String).length = (["", "files"] : List String).length
    ∧ ((scanV2 (["", "files"] ++ ["a", "b", "c"]) (["", "files"] ++ [":rest*"])).1.getLast?
          = some (":rest*", joinStr "/" ["a", "b", "c"])
       ∧ (scanV2 (["", "files"] ++ ["a", "b", "c"]) (["", "files"] ++ [":rest*"])).2 = true) :=
  ⟨by decide, by decide, rfl,
   catchall_binds_rest.1 ["", "files"] ["", "files"] ["a", "b", "c"] ":rest*"
     (by decide) (by decide) rfl (by decide) (by decide)⟩

set_option maxRecDepth 10000 in
set_option maxHeartbeats 4000000 in
/-- **C4**: `HttpResponse::status_to_header` is injective on the closed
`HttpStatus` enumeration — every status maps to a unique fixed
`"<code> <reason>"` string — and in particular `Ok ↦ "200 OK"`,
`IMATeapot ↦ "418 I'm a teapot"`, `NotFound ↦ "404 Not Found"`,
`NotImplemented ↦ "501 Not Implemented"`, and
`NetworkAuthenticationRequired ↦ "511 Network Authentication Required"`. -/
theorem status_to_header_bijection :
    (∀ a b : HttpStatus, statusToHeader a = statusToHeader b → a = b)
    ∧ statusToHeader .Ok = "200 OK"
    ∧ statusToHeader .IMATeapot = "418 I'm a teapot"
    ∧ statusToHeader .NotFound = "404 Not Found"
    ∧ statusToHeader .NotImplemented = "501 Not Implemented"
    ∧ statusToHeader .NetworkAuthenticationRequired
        = "511 Network Authentication Required" := by
  refine ⟨by decide, rfl, rfl, rfl, rfl, rfl⟩

/-- **C5**: `HttpResponse::to_headers` emits, in order, the status line
`HTTP/<version> <code> <reason>`, then `Content-Length: <n>` exactly when a
body is present (`n` the body's byte length), then every extra header
`<name>: <value>` in registration order, then the blank-line terminator; and
joined with CRLF this serializes the two example responses of the spec
exactly. -/
theorem response_serialization_order :
    (∀ r : HttpResponse,
       toHeaders r =
         ("HTTP/" ++ r.http_ver ++ " " ++ statusToHeader r.status)
           :: ((r.data.map dataToHeader).toList
               ++ (r.extra_headers.getD []).map (fun p => p.1 ++ ": " ++ p.2)
               ++ ["\r\n"]))
    ∧ serializeHeaders ⟨"2", .Ok, none, none⟩ = "HTTP/2 200 OK\r\n\r\n"
    ∧ serializeHeaders ⟨"2", .IMATeapot, none, some [116, 101, 115, 116]⟩
        = "HTTP/2 418 I'm a teapot\r\nContent-Length: 4\r\n\r\n" := by
  refine ⟨?_, rfl, rfl⟩
  rintro ⟨ver, st, eh, data⟩
  cases data <;> cases eh <;> simp [toHeaders]

/-- **C6**: `HttpHeaders::from_line` splits the header line on single spaces
and resolves tokens from the right: the last token is the protocol, the
second-to-last the path, and the token before them the method, which must be
one of GET/PUT/POST/DELETE (anything else is an error); with fewer than three
tokens the missing method, path, or protocol is an error. -/
theorem header_line_split :
    (∀ s : String, fromLine s = fromLineToks (splitStr ' ' s))
    ∧ (∀ (rest : List String) (mtok path protocol : String),
         fromLineToks (rest ++ [mtok, path, protocol]) =
           match methodOfToken mtok with
           | some m => .ok ⟨m, path, protocol⟩
           | none => .error ("Failed to fetch method, got: " ++ mtok))
    ∧ (∀ toks : List String, toks.length < 3 → isError (fromLineToks toks) = true) := by
  refine ⟨fun s => rfl, ?_, ?_⟩
  · intro rest mtok path protocol
    have h1 : rest ++ [mtok, path, protocol]
        = ((rest ++ [mtok]) ++ [path]) ++ [protocol] := by simp
    rw [h1]
    unfold fromLineToks
    simp only [List.getLast?_concat, List.dropLast_concat]
  · intro toks h
    match toks with
    | [] => rfl
    | [a] => rfl
    | [a, b] => rfl
    | a :: b :: c :: t => exact absurd h (by simp only [List.length_cons]; omega)

/-- Witness for **C6**: the characterization applied to the concrete line
`"GET / HTTP/1.1"` (three tokens, valid method) and to the two-token list
`["GET", "/"]` (missing method token, a parse error). -/
theorem header_line_split_witness :
    fromLine "GET / HTTP/1.1" = .ok ⟨.GET, "/", "HTTP/1.1"⟩
    ∧ ((["GET", "/"] : List String).length < 3
       ∧ isError (fromLineToks ["GET", "/"]) = true) :=
  ⟨header_line_split.2.1 [] "GET" "/" "HTTP/1.1",
   by decide, header_line_split.2.2 ["GET", "/"] (by decide)⟩

/-- **C7**: in `HttpRequest::from_stream`, a `"Content-Length"` header whose
value fails to parse is skipped without failing the request; a value parsing
as `n` causes exactly `n` bytes to be read from the remaining stream; and a
stream too short for the full read is a fatal error.  The last three conjuncts
exercise `from_stream` itself on each scenario. -/
theorem content_length_policy :
    (∀ (hs : List (String × String)) (d : Option (List (Fin 256)))
       (rest : List (Fin 256)) (v : String), parseUsize v = none →
       readBodies (("Content-Length", v) :: hs) d rest = readBodies hs d rest)
    ∧ (∀ (hs : List (String × String)) (d : Option (List (Fin 256)))
         (rest : List (Fin 256)) (v : String) (n : Nat),
         parseUsize v = some n → n ≤ rest.length →
         readBodies (("Content-Length", v) :: hs) d rest
           = readBodies hs (some (rest.take n)) (rest.drop n))
    ∧ (∀ (hs : List (String × String)) (d : Option (List (Fin 256)))
         (rest : List (Fin 256)) (v : String) (n : Nat),
         parseUsize v = some n → rest.length < n →
         readBodies (("Content-Length", v) :: hs) d rest
           = .error "Error reading request body")
    ∧ (∀ rest : List (Fin 256),
        fromStream ["GET / HTTP/1.1", "Content-Length: zzz"] rest
          = .ok (⟨⟨.GET, "/", "HTTP/1.1"⟩, [("Content-Length", "zzz")],
                  none, none, none⟩, rest))
    ∧ fromStream ["GET / HTTP/1.1", "Content-Length: 3"] [7, 8, 9, 10]
        = .ok (⟨⟨.GET, "/", "HTTP/1.1"⟩, [("Content-Length", "3")],
                some [7, 8, 9], none, none⟩, [10])
    ∧ isError (fromStream ["GET / HTTP/1.1", "Content-Length: 3"] [7]) = true := by
  refine ⟨?_, ?_, ?_, fun rest => rfl, rfl, rfl⟩
  · intro hs d rest v h
    simp [readBodies, h]
  · intro hs d rest v n h1 h2
    have h3 : ¬ rest.length < n := by omega
    simp [readBodies, h1, h3]
  · intro hs d rest v n h1 h2
    simp [readBodies, h1, h2]

/-- Witness for **C7**: the exact-read conjunct applied to value `"4"` over a
five-byte stream. -/
theorem content_length_policy_witness :
    parseUsize "4" = some 4
    ∧ (4 : Nat) ≤ ([1, 2, 3, 4, 5] : List (Fin 256)).length
    ∧ readBodies [("Content-Length", "4")] none [1, 2, 3, 4, 5]
        = readBodies [] (some [1, 2, 3, 4]) [5] :=
  ⟨by decide, by decide,
   content_length_policy.2.1 [] none [1, 2, 3, 4, 5] "4" 4 (by decide) (by decide)⟩

/-- **C8**: in `HttpRequest::from_stream`, every header line after the first
containing a `':'` contributes one `(key, value)` pair split at the first
`':'` with both sides trimmed, in original order; a line with no `':'` is
skipped without aborting the rest; and any successfully parsed request has
`route_params = None` and `query_params = None`.  The final conjunct runs
`from_stream` over a header section containing a malformed line. -/
theorem extra_header_parsing :
    (∀ (line : String) (rest : List String) (k v : String),
       line.data.isEmpty = false → splitOnceChar ':' line = some (k, v) →
       parseExtraHeaders (line :: rest)
         = (trimStr k, trimStr v) :: parseExtraHeaders rest)
    ∧ (∀ (line : String) (rest : List String),
       line.data.isEmpty = false → splitOnceChar ':' line = none →
       parseExtraHeaders (line :: rest) = parseExtraHeaders rest)
    ∧ (∀ (lines : List String) (rest : List (Fin 256)) r rest',
         fromStream lines rest = .ok (r, rest') →
         r.route_params = none ∧ r.query_params = none)
    ∧ fromStream ["GET / HTTP/1.1", "garbage", "Host: h", "X:  y"] []
        = .ok (⟨⟨.GET, "/", "HTTP/1.1"⟩, [("Host", "h"), ("X", "y")],
                none, none, none⟩, []) := by
  refine ⟨?_, ?_, ?_, rfl⟩
  · intro line rest k v h1 h2
    simp [parseExtraHeaders, h1, h2]
  · intro line rest h1 h2
    simp [parseExtraHeaders, h1, h2]
  · intro lines rest r rest' h
    unfold fromStream at h
    cases hfl : fromLine (lines.head?.getD "") with
    | error e => rw [hfl] at h; simp at h
    | ok hh =>
      rw [hfl] at h
      dsimp only at h
      cases hrb : readBodies (parseExtraHeaders lines.tail) none rest with
      | error e => rw [hrb] at h; simp at h
      | ok pr =>
        obtain ⟨d, rest0⟩ := pr
        rw [hrb] at h
        simp only [Except.ok.injEq, Prod.mk.injEq] at h
        obtain ⟨h1, -⟩ := h
        rw [← h1]
        exact ⟨rfl, rfl⟩

/-- Witness for **C8**: the colon-split conjunct applied to the line
`"Host: h"` ahead of a remaining header list. -/
theorem extra_header_parsing_witness :
    ("Host: h" : String).data.isEmpty = false
    ∧ splitOnceChar ':' "Host: h" = some ("Host", " h")
    ∧ parseExtraHeaders ["Host: h", "X: y"]
        = (trimStr "Host", trimStr " h") :: parseExtraHeaders ["X: y"] :=
  ⟨by decide, by decide,
   extra_header_parsing.1 "Host: h" ["X: y"] "Host" " h" (by decide) (by decide)⟩

/-- **C9**: `HttpRequest::query_params_from_string` splits the raw query
string on `'&'`, then each piece once on the first `'='`; pieces without
`'='` are dropped; the result is the ordered list of `(key, value)` pairs,
order-preserving and permitting duplicate keys; `"x=1"` yields
`[("x", "1")]`. -/
theorem query_params_split :
    (∀ s : String, queryParamsFromString s
       = (splitStr '&' s).foldr
           (fun e acc =>
             match splitOnceChar '=' e with
             | some kv => kv :: acc
             | none => acc) [])
    ∧ queryParamsFromString "x=1" = [("x", "1")]
    ∧ queryParamsFromString "a=1&b=2&a=3" = [("a", "1"), ("b", "2"), ("a", "3")]
    ∧ queryParamsFromString "a&b=2" = [("b", "2")] := by
  exact ⟨fun s => queryGo_eq_foldr _, rfl, rfl, rfl⟩

/-- **C10**: with two `"Content-Length"` headers whose values parse as `n₁`
and `n₂`, `HttpRequest::from_stream` performs two exact reads, the second
consuming bytes after the first, and the attached body is the second (last)
buffer; the concrete conjunct runs `from_stream` with values 2 and 3 over six
bytes, attaching bytes 3–5 and leaving byte 6 unread. -/
theorem duplicate_content_length_reads :
    (∀ (hs : List (String × String)) (d : Option (List (Fin 256)))
       (rest : List (Fin 256)) (u v : String) (m n : Nat),
       parseUsize u = some m → parseUsize v = some n → m + n ≤ rest.length →
       readBodies (("Content-Length", u) :: ("Content-Length", v) :: hs) d rest
         = readBodies hs (some ((rest.drop m).take n)) ((rest.drop m).drop n))
    ∧ fromStream ["POST /u HTTP/1.1", "Content-Length: 2", "Content-Length: 3"]
        [1, 2, 3, 4, 5, 6]
        = .ok (⟨⟨.POST, "/u", "HTTP/1.1"⟩,
                [("Content-Length", "2"), ("Content-Length", "3")],
                some [3, 4, 5], none, none⟩, [6]) := by
  refine ⟨?_, rfl⟩
  intro hs d rest u v m n h1 h2 hlen
  have e1 : ¬ rest.length < m := by omega
  have e2 : ¬ rest.length - m < n := by omega
  simp [readBodies, h1, h2, e1, e2]

/-- Witness for **C10**: the two-occurrence conjunct applied to values `"2"`
and `"3"` over six bytes: the body is the second buffer `[3, 4, 5]`, not the
first. -/
theorem duplicate_content_length_reads_witness :
    parseUsize "2" = some 2 ∧ parseUsize "3" = some 3
    ∧ 2 + 3 ≤ ([1, 2, 3, 4, 5, 6] : List (Fin 256)).length
    ∧ readBodies [("Content-Length", "2"), ("Content-Length", "3")] none
        [1, 2, 3, 4, 5, 6]
        = readBodies [] (some [3, 4, 5]) [6] :=
  ⟨by decide, by decide, by decide,
   duplicate_content_length_reads.1 [] none [1, 2, 3, 4, 5, 6] "2" "3" 2 3
     (by decide) (by decide) (by decide)⟩

end HttpServ
